import Mathlib

/-!
Shallow embedding of the SEPA IoT data-collection core
(`data_fetcher.py`, `Data_Parser_Examples.py`).

Modelling conventions:
* byte strings are `List Nat` with every element `< 256` (produced by the
  hex decoder), machine integers are decoded with explicit `% 2^w`
  sign-folding (`toSigned`);
* Python float arithmetic on the scaled sensor values is modelled over `ℚ`,
  and Python `round(x, 2)` as round-half-to-even at two decimals;
* instants (`datetime`) are modelled as `Int` seconds; `timedelta(days=14)`
  is `14 * 86400`, `timedelta.days` is floor division by `86400`;
* fallible Python operations (`bytes.fromhex`, `struct.unpack`, `int(...)`,
  `float(...)`, `datetime.fromisoformat`, `strptime`) return `Option`;
  an exception caught by a `try/except` is the `none` case;
* the standard-library date parsers `datetime.fromisoformat` and
  `datetime.strptime` are parameters of the embedding (any
  `String → Option Int`); concrete model instances are provided for
  evaluating witnesses.
-/

/-- Fold a big-endian unsigned value of bit width `w` into a signed integer,
as `struct.unpack` does for the signed format codes. -/
def toSigned (w : Nat) (n : Nat) : Int :=
  if n < 2 ^ (w - 1) then (n : Int) else (n : Int) - 2 ^ w

/-- Big-endian two-byte encoding of a 16-bit signed integer (used to state
round-trip theorems about the decoders). -/
def i16be (v : Int) : List Nat :=
  let n := (v % 65536).toNat
  [n / 256, n % 256]

/-- Big-endian four-byte encoding of a 32-bit signed integer. -/
def i32be (v : Int) : List Nat :=
  let n := (v % 4294967296).toNat
  [n / 16777216, n / 65536 % 256, n / 256 % 256, n % 256]

/-- One-byte encoding of an 8-bit signed integer. -/
def i8be (v : Int) : List Nat :=
  [(v % 256).toNat]

/-- Value of a hexadecimal digit character, `none` if the character is not a
hex digit (the failure case of `bytes.fromhex`). -/
def hexDigit (c : Char) : Option Nat :=
  if '0' ≤ c ∧ c ≤ '9' then some (c.toNat - 48)
  else if 'a' ≤ c ∧ c ≤ 'f' then some (c.toNat - 87)
  else if 'A' ≤ c ∧ c ≤ 'F' then some (c.toNat - 55)
  else none

/-- Decode a list of hex-digit characters two at a time into bytes;
`none` on an odd length or a non-hex character. -/
def hexPairs : List Char → Option (List Nat)
  | [] => some []
  | [_] => none
  | c1 :: c2 :: rest => do
    let h ← hexDigit c1
    let l ← hexDigit c2
    let bs ← hexPairs rest
    pure ((h * 16 + l) :: bs)

/-- Model of Python `bytes.fromhex`: hex string to bytes, `none` = raises. -/
def hexToBytes (s : String) : Option (List Nat) :=
  hexPairs s.data

/-- Round a rational to the nearest integer, ties to even: the rounding mode
of Python `round`. -/
def roundHalfEven (q : ℚ) : Int :=
  let f := ⌊q⌋
  let r := q - (f : ℚ)
  if r < 1 / 2 then f
  else if 1 / 2 < r then f + 1
  else if f % 2 = 0 then f else f + 1

/-- Model of Python `round(x, 2)`. -/
def round2 (q : ℚ) : ℚ :=
  (roundHalfEven (q * 100) : ℚ) / 100

/-- Decoded reading, one variant per device family
(the lists returned by the parsers in `Data_Parser_Examples.py`). -/
inductive Reading
  | droplet (temp press humid batt rtcTemp rain : ℚ) (status : Int)
  | echo (level temp batt waterTemp : ℚ) (status : Int)
  | hygro (vwc soilTemp ec airTemp humid batt : ℚ) (status : Int)
  | hydroRanger (sens : Int) (lvlAvg lvlMin lvlMax : Int) (temp humid : Option ℚ)
  | theta (vwc soilTemp ec : ℚ)
deriving DecidableEq

/-- Body of `parseDROPLETdata` after `bytes.fromhex`:
`struct.unpack(">hlhhhhh")` needs exactly 16 bytes, else it raises. -/
def parseDROPLETbytes : List Nat → Option Reading
  | [a0, a1, a2, a3, a4, a5, a6, a7, a8, a9, a10, a11, a12, a13, a14, a15] =>
    let intTemp := toSigned 16 (a0 * 256 + a1)
    let intPress := toSigned 32 (((a2 * 256 + a3) * 256 + a4) * 256 + a5)
    let intHumid := toSigned 16 (a6 * 256 + a7)
    let intBatt := toSigned 16 (a8 * 256 + a9)
    let intRTCTemp := toSigned 16 (a10 * 256 + a11)
    let intRain := toSigned 16 (a12 * 256 + a13)
    let intStatus := toSigned 16 (a14 * 256 + a15)
    some (.droplet ((intTemp : ℚ) / 100) ((intPress : ℚ) / 100)
      ((intHumid : ℚ) / 100) (round2 ((intBatt : ℚ) / 10))
      ((intRTCTemp : ℚ) / 100) (round2 ((intRain : ℚ) * (42 / 100)))
      intStatus)
  | _ => none

/-- `parseDROPLETdata(payload)` from `Data_Parser_Examples.py`. -/
def parseDROPLETdata (payload : String) : Option Reading :=
  (hexToBytes payload).bind parseDROPLETbytes

/-- Body of `parseECHOdata` after `bytes.fromhex`:
`struct.unpack(">hhhhh")` needs exactly 10 bytes. -/
def parseECHObytes (bs : List Nat) (emptyDist : Option Int) : Option Reading :=
  match bs with
  | [a0, a1, a2, a3, a4, a5, a6, a7, a8, a9] =>
    let intDist := toSigned 16 (a0 * 256 + a1)
    let intTemp := toSigned 16 (a2 * 256 + a3)
    let intBatt := toSigned 16 (a4 * 256 + a5)
    let intWaterTemp := toSigned 16 (a6 * 256 + a7)
    let intStatus := toSigned 16 (a8 * 256 + a9)
    let fltLevel : ℚ := match emptyDist with
      | some e => (e : ℚ) - (intDist : ℚ)
      | none => (intDist : ℚ)
    some (.echo fltLevel ((intTemp : ℚ) / 100) (round2 ((intBatt : ℚ) / 1000))
      ((intWaterTemp : ℚ) / 100) intStatus)
  | _ => none

/-- `parseECHOdata(payload, emptyDist)` from `Data_Parser_Examples.py`. -/
def parseECHOdata (payload : String) (emptyDist : Option Int) : Option Reading :=
  (hexToBytes payload).bind (parseECHObytes · emptyDist)

/-- Body of `parseHYGROdata` after `bytes.fromhex`:
`struct.unpack(">HHhHHHH")` needs exactly 14 bytes; all fields are unsigned
16-bit except the third (EC), which is signed. -/
def parseHYGRObytes (bs : List Nat) : Option Reading :=
  match bs with
  | [a0, a1, a2, a3, a4, a5, a6, a7, a8, a9, a10, a11, a12, a13] =>
    let intVWC : Nat := a0 * 256 + a1
    let soilTempRaw : Nat := a2 * 256 + a3
    let intEC := toSigned 16 (a4 * 256 + a5)
    let airTempRaw : Nat := a6 * 256 + a7
    let humidRaw : Nat := a8 * 256 + a9
    let battRaw : Nat := a10 * 256 + a11
    let intStatus : Nat := a12 * 256 + a13
    let rawVWC : ℚ := (intVWC : ℚ) / 10
    some (.hygro (round2 (((3879 / 10000000) * rawVWC - 6956 / 10000) * 100))
      (round2 ((soilTempRaw : ℚ) / 100)) ((intEC : ℚ))
      ((airTempRaw : ℚ) / 100) ((humidRaw : ℚ) / 100)
      (round2 ((battRaw : ℚ) / 1000)) (intStatus : Int))
  | _ => none

/-- `parseHYGROdata(payload)` from `Data_Parser_Examples.py`. -/
def parseHYGROdata (payload : String) : Option Reading :=
  (hexToBytes payload).bind parseHYGRObytes

/-- Body of `parseHydroRangerPayload` after `bytes.fromhex`:
`struct.unpack(">bhhhhhh")` needs exactly 13 bytes.  With a reference
distance the min/max levels are intentionally swapped relative to the raw
distances; the `-777` raw temperature is a sentinel making temperature and
humidity absent.  The water-temperature field is decoded but not returned,
as in the source. -/
def parseHydroRangerBytes (bs : List Nat) (emptyDist : Option Int) : Option Reading :=
  match bs with
  | [a0, a1, a2, a3, a4, a5, a6, a7, a8, a9, a10, _a11, _a12] =>
    let boolSens := toSigned 8 a0
    let intAvg := toSigned 16 (a1 * 256 + a2)
    let intMin := toSigned 16 (a3 * 256 + a4)
    let intMax := toSigned 16 (a5 * 256 + a6)
    let intTemp := toSigned 16 (a7 * 256 + a8)
    let intHumid := toSigned 16 (a9 * 256 + a10)
    let lvls : Int × Int × Int := match emptyDist with
      | some e => (e - intAvg, e - intMax, e - intMin)
      | none => (intAvg, intMin, intMax)
    let fltTemp : Option ℚ :=
      if intTemp ≠ -777 then some (round2 ((intTemp : ℚ) / 100)) else none
    let fltHumid : Option ℚ :=
      if intTemp ≠ -777 then some (round2 ((intHumid : ℚ) / 100)) else none
    some (.hydroRanger boolSens lvls.1 lvls.2.1 lvls.2.2 fltTemp fltHumid)
  | _ => none

/-- `parseHydroRangerPayload(strPayload, emptyDist)` from
`Data_Parser_Examples.py`. -/
def parseHydroRangerPayload (payload : String) (emptyDist : Option Int) : Option Reading :=
  (hexToBytes payload).bind (parseHydroRangerBytes · emptyDist)

/-- ASCII decode of a byte list (`bytes.decode('ascii')`); `none` = raises on
a byte `≥ 128`. -/
def asciiDecode (bs : List Nat) : Option (List Char) :=
  if bs.all (· < 128) then some (bs.map Char.ofNat) else none

/-- Characters matched by the character class in the Theta token pattern. -/
def thetaBodyChar (c : Char) : Bool :=
  c.isDigit || c = '.'

/-- Scan for the non-overlapping matches of the Theta token pattern:
a sign followed by a nonempty run of digits and dots. -/
def tokenScan : List Char → List String
  | [] => []
  | c :: rest =>
    if c = '+' ∨ c = '-' then
      let run := rest.takeWhile thetaBodyChar
      if run.isEmpty then tokenScan rest
      else String.mk (c :: run) :: tokenScan (rest.drop run.length)
    else tokenScan rest
termination_by cs => cs.length
decreasing_by
  all_goals simp [List.length_drop]
  all_goals omega

/-- Model of Python `float(...)` on a signed token from the Theta pattern:
valid iff the body has at least one digit and at most one dot. -/
def parseFloatTok (s : String) : Option ℚ :=
  match s.data with
  | c :: body =>
    if (c = '+' ∨ c = '-') ∧ body.all thetaBodyChar ∧ body.any Char.isDigit
        ∧ (body.filter (· = '.')).length ≤ 1 then
      let intPart := body.takeWhile Char.isDigit
      let fracPart := (body.drop intPart.length).drop 1
      let ipVal : Nat := intPart.foldl (fun acc d => acc * 10 + (d.toNat - 48)) 0
      let fpVal : Nat := fracPart.foldl (fun acc d => acc * 10 + (d.toNat - 48)) 0
      let mag : ℚ := (ipVal : ℚ) + (fpVal : ℚ) / (10 ^ fracPart.length : ℚ)
      some (if c = '-' then -mag else mag)
    else none
  | [] => none

/-- `parseThetaPayload(hex_str)` from `Data_Parser_Examples.py`: hex to
ASCII text, extract the signed decimal tokens, require exactly three,
convert each with `float`, and apply the VWC calibration. -/
def parseThetaPayload (payload : String) : Option Reading := do
  let bs ← hexToBytes payload
  let cs ← asciiDecode bs
  match (tokenScan cs).map parseFloatTok with
  | [some rawVWC, some ts, some ecs] =>
    pure (.theta (round2 (((3879 / 10000000) * rawVWC - 6956 / 10000) * 100)) ts ecs)
  | _ => none

/-- Whitespace for Python `str.strip`. -/
def isPyWS (c : Char) : Bool :=
  c = ' ' || c = '\t' || c = '\n' || c = '\r'

/-- Model of Python `str.strip()` on the character list. -/
def pyStrip (cs : List Char) : List Char :=
  ((cs.dropWhile isPyWS).reverse.dropWhile isPyWS).reverse

/-- Model of Python `str.replace("Z", "+00:00")` on the character list
(the only `replace` the timestamp normalizer performs). -/
def replaceZchars : List Char → List Char
  | [] => []
  | c :: rest =>
    (if c = 'Z' then ['+', '0', '0', ':', '0', '0'] else [c]) ++ replaceZchars rest

/-- String form of `replaceZchars`. -/
def replaceZ (s : String) : String :=
  String.mk (replaceZchars s.data)

/-- Model of Python `int(...)` on a string: optional surrounding whitespace,
optional sign, a nonempty digit run; `none` = raises `ValueError`. -/
def parseIntStr (s : String) : Option Int :=
  match pyStrip s.data with
  | [] => none
  | c :: rest =>
    if c = '+' ∨ c = '-' then
      if rest ≠ [] ∧ rest.all Char.isDigit then
        let n : Nat := rest.foldl (fun acc d => acc * 10 + (d.toNat - 48)) 0
        some (if c = '-' then -(n : Int) else (n : Int))
      else none
    else if (c :: rest).all Char.isDigit then
      some ((c :: rest).foldl (fun acc d => acc * 10 + (d.toNat - 48)) 0 : Nat)
    else none

/-- The `empty_distance` argument of `parse_payload` as it arrives from the
device catalog: absent, already an integer, or a string. -/
inductive EDistIn
  | int (n : Int)
  | str (s : String)
deriving DecidableEq

/-- The `empty_dist_int` conversion at the top of `parse_payload`;
outer `none` = the `int(...)` call raised (caught by the handler). -/
def convEDist : Option EDistIn → Option (Option Int)
  | none => some none
  | some (.int n) => some (some n)
  | some (.str s) =>
    if pyStrip s.data = [] then some none
    else (parseIntStr s).map some

/-- The five device kinds of the catalog. -/
inductive DeviceType
  | hydroRanger | theta | echo | droplet | hygro
deriving DecidableEq

/-- Result of `parse_payload`: a decoded reading (a Python list), the
`{"error": ...}` dict produced by the exception handler, or the
`{"note": "unparsed/short payload"}` dict of the fall-through return. -/
inductive ParseResult
  | reading (r : Reading)
  | errorDict
  | noteDict
deriving DecidableEq

/-- `parse_payload(device_type, payload, empty_distance)` from
`data_fetcher.py`: converts the empty distance, routes to the decoder for
the kind, turns any raised exception into the error dict, and falls through
to the note dict when the HydroRanger length guard fails. -/
def parse_payload (dt : DeviceType) (payload : String) (ed : Option EDistIn) : ParseResult :=
  match convEDist ed with
  | none => .errorDict
  | some edi =>
    match dt with
    | .hydroRanger =>
      match hexToBytes payload with
      | none => .errorDict
      | some bs =>
        if bs.length = 13 then
          match parseHydroRangerPayload payload edi with
          | some r => .reading r
          | none => .errorDict
        else .noteDict
    | .theta =>
      match parseThetaPayload payload with
      | some r => .reading r
      | none => .errorDict
    | .echo =>
      match parseECHOdata payload edi with
      | some r => .reading r
      | none => .errorDict
    | .droplet =>
      match parseDROPLETdata payload with
      | some r => .reading r
      | none => .errorDict
    | .hygro =>
      match parseHYGROdata payload with
      | some r => .reading r
      | none => .errorDict

/-- Anchored match of the fractional-timestamp pattern of strategy (b) of
`parse_timestamp_robust`: a 19-character date-time head, a dot, a nonempty
digit run, then an offset `[+-]dd:dd` or `Z`; trailing text is ignored
(Python `re.match` does not anchor at the end).  Returns the three groups. -/
def matchFracPattern : List Char → Option (List Char × List Char × List Char)
  | y1 :: y2 :: y3 :: y4 :: '-' :: m1 :: m2 :: '-' :: d1 :: d2 :: 'T' ::
      h1 :: h2 :: ':' :: n1 :: n2 :: ':' :: s1 :: s2 :: '.' :: rest =>
    if ([y1, y2, y3, y4, m1, m2, d1, d2, h1, h2, n1, n2, s1, s2]).all Char.isDigit then
      let micro := rest.takeWhile Char.isDigit
      if micro.isEmpty then none
      else
        let tzrest := rest.drop micro.length
        let tz : Option (List Char) := match tzrest with
          | 'Z' :: _ => some ['Z']
          | c :: a :: b :: ':' :: d :: e :: _ =>
            if (c = '+' ∨ c = '-') ∧ ([a, b, d, e]).all Char.isDigit then
              some [c, a, b, ':', d, e]
            else none
          | _ => none
        match tz with
        | some tzg =>
          some ([y1, y2, y3, y4, '-', m1, m2, '-', d1, d2, 'T',
                 h1, h2, ':', n1, n2, ':', s1, s2], micro, tzg)
        | none => none
    else none
  | _ => none

/-- Strategy (b) of `parse_timestamp_robust`: isolate the fractional-second
run, truncate/right-pad it to six digits, and reparse.  `fromiso` models
`datetime.fromisoformat`. -/
def tsStrategyFrac (fromiso : String → Option Int) (s : String) : Option Int :=
  match matchFracPattern s.data with
  | none => none
  | some (base, micro, tz) =>
    let t6 := micro.take 6
    let trunc := t6 ++ List.replicate (6 - t6.length) '0'
    let clean := base ++ ['.'] ++ trunc ++ tz
    fromiso (String.mk (replaceZchars clean))

/-- Strategy (c) of `parse_timestamp_robust`: strip the fractional part and
reparse base + offset (`timestamp_str.split('.')[0]` is the prefix before
the first dot, `'+' + timestamp_str.split('+')[1]` the segment after the
first plus).  Falls through (`none`) when the string neither ends in `Z`
nor contains `+`. -/
def tsStrategyNoFrac (fromiso : String → Option Int) (s : String) : Option Int :=
  let cs := s.data
  let base := cs.takeWhile (· ≠ '.')
  if cs.getLast? = some 'Z' then fromiso (String.mk (base ++ ['Z']))
  else if cs.any (· = '+') then
    let tzpart := '+' :: ((cs.dropWhile (· ≠ '+')).drop 1).takeWhile (· ≠ '+')
    fromiso (String.mk (base ++ tzpart))
  else none

/-- The cleaning substitution of strategy (d): delete a trailing UTC offset
together with the fractional digits (and dot) immediately before it, or a
trailing `Z`. -/
def stripOffsetSuffix (s : String) : String :=
  match s.data.reverse with
  | e2 :: e1 :: ':' :: b2 :: b1 :: c :: rest =>
    if (c = '+' ∨ c = '-') ∧ ([b1, b2, e1, e2]).all Char.isDigit then
      let rest2 := rest.dropWhile Char.isDigit
      let rest3 := match rest2 with
        | '.' :: t => t
        | _ => rest2
      String.mk rest3.reverse
    else if s.data.getLast? = some 'Z' then String.mk (s.data.dropLast) else s
  | _ => if s.data.getLast? = some 'Z' then String.mk (s.data.dropLast) else s

/-- `parse_timestamp_robust(timestamp_str)` from `data_fetcher.py`,
parameterized by the standard-library parsers it wraps: `fromiso` models
`datetime.fromisoformat`, `strptime` models
`datetime.strptime(·, "%Y-%m-%dT%H:%M:%S")`, and `now` the current
wall-clock instant (the code reads the clock afresh at each fallback; one
parameter suffices for the embedding).  Every strategy failure is a caught
`ValueError`; the function itself always returns an instant. -/
def parse_timestamp_robust (fromiso strptime : String → Option Int)
    (now : Int) (s : String) : Int :=
  if s = "" then now
  else
    match fromiso (replaceZ s) with
    | some t => t
    | none =>
      match tsStrategyFrac fromiso s with
      | some t => t
      | none =>
        match tsStrategyNoFrac fromiso s with
        | some t => t
        | none =>
          match strptime (stripOffsetSuffix s) with
          | some t => t
          | none => now

/-- Days since 1970-01-01 of a proleptic-Gregorian civil date
(floor-division form of the standard civil-from-days inverse). -/
def daysFromCivil (y m d : Int) : Int :=
  let y2 := if m ≤ 2 then y - 1 else y
  let era := Int.fdiv y2 400
  let yoe := y2 - era * 400
  let mp := if 2 < m then m - 3 else m + 9
  let doy := Int.fdiv (153 * mp + 2) 5 + d - 1
  let doe := yoe * 365 + Int.fdiv yoe 4 - Int.fdiv yoe 100 + doy
  era * 146097 + doe - 719468

/-- Pair of decimal digit characters as a number. -/
def dig2 (a b : Char) : Nat :=
  (a.toNat - 48) * 10 + (b.toNat - 48)

/-- Epoch seconds of a 19-character civil date-time given by digit pairs. -/
def epochOf (y1 y2 y3 y4 m1 m2 d1 d2 h1 h2 n1 n2 s1 s2 : Char) : Int :=
  daysFromCivil (dig2 y1 y2 * 100 + dig2 y3 y4) (dig2 m1 m2) (dig2 d1 d2) * 86400
    + dig2 h1 h2 * 3600 + dig2 n1 n2 * 60 + dig2 s1 s2

/-- Model instance of `datetime.fromisoformat`, restricted to
`YYYY-MM-DDTHH:MM:SS`, optionally followed by a `+00:00` UTC offset
(the shapes evaluated by the concrete witnesses below); naive and UTC-aware
instants are conflated on the single `Int` timeline. -/
def fromisoModel (s : String) : Option Int :=
  match s.data with
  | [y1, y2, y3, y4, '-', m1, m2, '-', d1, d2, 'T', h1, h2, ':', n1, n2, ':', s1, s2] =>
    if ([y1, y2, y3, y4, m1, m2, d1, d2, h1, h2, n1, n2, s1, s2]).all Char.isDigit then
      some (epochOf y1 y2 y3 y4 m1 m2 d1 d2 h1 h2 n1 n2 s1 s2)
    else none
  | [y1, y2, y3, y4, '-', m1, m2, '-', d1, d2, 'T', h1, h2, ':', n1, n2, ':', s1, s2,
     '+', '0', '0', ':', '0', '0'] =>
    if ([y1, y2, y3, y4, m1, m2, d1, d2, h1, h2, n1, n2, s1, s2]).all Char.isDigit then
      some (epochOf y1 y2 y3 y4 m1 m2 d1 d2 h1 h2 n1 n2 s1 s2)
    else none
  | _ => none

/-- Model instance of `datetime.strptime(·, "%Y-%m-%dT%H:%M:%S")`:
the bare 19-character shape only. -/
def strptimeModel (s : String) : Option Int :=
  match s.data with
  | [y1, y2, y3, y4, '-', m1, m2, '-', d1, d2, 'T', h1, h2, ':', n1, n2, ':', s1, s2] =>
    if ([y1, y2, y3, y4, m1, m2, d1, d2, h1, h2, n1, n2, s1, s2]).all Char.isDigit then
      some (epochOf y1 y2 y3 y4 m1 m2 d1 d2 h1 h2 n1 n2 s1 s2)
    else none
  | _ => none

/-- Response body of the bounds endpoint: a JSON object whose `startTS` /
`endTS` keys may be missing (`bounds.get(..., "")` then yields `""`). -/
structure BoundsBody where
  startTS : Option String
  endTS : Option String
deriving DecidableEq

/-- `get_device_bounds_safe(device_eui, device_type)` from
`data_fetcher.py`, with the network interaction made explicit: `resp` is
`some body` for a well-formed JSON-object response and `none` for every
failure caught by the handler (connection error, timeout, bad HTTP status,
unparseable or non-object body).  `ptr` is the timestamp normalizer in use.
On failure the default window (now − 365 days, now) is returned. -/
def get_device_bounds_safe (ptr : String → Int) (now : Int)
    (resp : Option BoundsBody) : Int × Int :=
  match resp with
  | none => (now - 365 * 86400, now)
  | some b => (ptr (b.startTS.getD ""), ptr (b.endTS.getD ""))

/-- Static fields of the device looked up by `get_device_info`. -/
structure DeviceInfo where
  eui : String
  dtype : DeviceType
  emptyDistance : Option EDistIn
  devName : String
  siteName : String
  lat : ℚ
  lon : ℚ
deriving DecidableEq

/-- One element of a batch-fetch response array; each field is `none` when
the corresponding key is missing from the JSON object (a `KeyError` site). -/
structure RawRec where
  timeStamp : Option String
  devEUI : Option String
  payload : Option String
  metadata : Option String
deriving DecidableEq

/-- The record dict assembled by the loop body of `fetch_full_history`:
envelope and device fields always, decoded-reading fields only when the
payload decoded to a list (`reading = some r`); `reading = none` is the
dict-result case in which no sensor columns are added. -/
structure CanonicalRecord where
  timestamp : String
  devEUI : String
  devName : String
  dtype : DeviceType
  siteName : String
  lat : ℚ
  lon : ℚ
  payload : String
  metadata : Option String
  reading : Option Reading
deriving DecidableEq

/-- The per-record try-block of `fetch_full_history` (its `except` clause
skips the record): `none` when a required envelope key (`Payload`,
`TimeStamp`, `DevEUI`) is missing, otherwise the assembled record.
`parse_payload` itself never raises, and the metadata sub-try keeps the raw
string on a literal-parse failure, so metadata is carried through either
way. -/
def processRecord (info : DeviceInfo) (rec : RawRec) : Option CanonicalRecord :=
  match rec.payload with
  | none => none
  | some pl =>
    match rec.timeStamp, rec.devEUI with
    | some ts, some eui =>
      let parsed := parse_payload info.dtype pl info.emptyDistance
      some { timestamp := ts, devEUI := eui, devName := info.devName,
             dtype := info.dtype, siteName := info.siteName,
             lat := info.lat, lon := info.lon, payload := pl,
             metadata := rec.metadata,
             reading := match parsed with
               | .reading r => some r
               | _ => none }
    | _, _ => none

/-- One batch-fetch round trip: `failure` is any exception caught by the
outer batch handler (network error, timeout, bad status, body not JSON);
`success data` is a parsed JSON array. -/
inductive BatchResponse
  | failure
  | success (data : List RawRec)

/-- Outcome of one iteration of the fetch loop: `halt` is the `break` on an
empty batch, `cont` carries the records kept from this batch and the new
cursor position. -/
inductive StepOut
  | halt (recs : List CanonicalRecord)
  | cont (recs : List CanonicalRecord) (ts : Int)
deriving DecidableEq

/-- The body of the `while` loop of `fetch_full_history` for one iteration,
given the cursor `ts` and the round-trip outcome.  On batch failure the
cursor skips 14 days.  On a non-empty batch the records are processed, and
the cursor becomes the normalized timestamp of the batch's last record plus
one second; if that record lacks a `TimeStamp` key the inner handler falls
back to the 14-day skip. -/
def loopStep (info : DeviceInfo) (ptr : String → Int)
    (resp : BatchResponse) (ts : Int) : StepOut :=
  match resp with
  | .failure => .cont [] (ts + 14 * 86400)
  | .success data =>
    if data.isEmpty then .halt []
    else
      let recs := data.filterMap (processRecord info)
      let ts2 := match data.getLast?.bind RawRec.timeStamp with
        | some s => ptr s + 1
        | none => ts + 14 * 86400
      .cont recs ts2

/-- Observable outcome of a fetch run: the accumulated records, the number
of batch-fetch requests issued, and the trace of cursor (window-start)
values at the entry of each executed iteration. -/
structure FetchOut where
  records : List CanonicalRecord
  requests : Nat
  trace : List Int
deriving DecidableEq

/-- The `while ts < end and batch_count < 100` loop of `fetch_full_history`.
`fuel` is `100 - batch_count` (so the guard `batch_count < 100` is
`fuel > 0`), `k` is the number of requests issued so far, and `server`
gives the outcome of the `k`-th round trip. -/
def fetchLoop (info : DeviceInfo) (ptr : String → Int)
    (server : Nat → BatchResponse) (endT : Int) :
    Nat → Nat → Int → FetchOut
  | 0, k, _ => ⟨[], k, []⟩
  | fuel + 1, k, ts =>
    if ts < endT then
      match loopStep info ptr (server k) ts with
      | .halt recs => ⟨recs, k + 1, [ts]⟩
      | .cont recs ts2 =>
        let rest := fetchLoop info ptr server endT fuel (k + 1) ts2
        ⟨recs ++ rest.records, rest.requests, ts :: rest.trace⟩
    else ⟨[], k, []⟩

/-- Collection start of `fetch_full_history`: `max_days` is applied only
when truthy (a configured cap of `0` behaves like no cap). -/
def collection_start (start endT : Int) (maxDays : Option Nat) : Int :=
  match maxDays with
  | none => start
  | some m => if m = 0 then start else max start (endT - (m : Int) * 86400)

/-- Stable-enough insertion sort by an integer key
(the final `sort_values('timestamp')`). -/
def insertByKey (key : CanonicalRecord → Int) (x : CanonicalRecord) :
    List CanonicalRecord → List CanonicalRecord
  | [] => [x]
  | y :: ys =>
    if key x ≤ key y then x :: y :: ys else y :: insertByKey key x ys

/-- Sort a record list ascending by an integer key. -/
def sortByKey (key : CanonicalRecord → Int) (l : List CanonicalRecord) :
    List CanonicalRecord :=
  l.foldr (insertByKey key) []

/-- `fetch_full_history(device_eui, max_days)` from `data_fetcher.py`, with
the environment made explicit: `fromiso`/`strptime`/`now` feed the
timestamp normalizer, `boundsResp` is the bounds round trip and `server`
the batch round trips.  Resolves bounds, applies the day cap, returns empty
with no requests when the whole-day count of the range is not positive, and
otherwise runs the loop from the collection start with the 100-batch cap,
finally sorting by normalized timestamp. -/
def fetch_full_history (info : DeviceInfo)
    (fromiso strptime : String → Option Int) (now : Int)
    (boundsResp : Option BoundsBody) (server : Nat → BatchResponse)
    (maxDays : Option Nat) : FetchOut :=
  let ptr := parse_timestamp_robust fromiso strptime now
  let b := get_device_bounds_safe ptr now boundsResp
  let endT := b.2
  let cs := collection_start b.1 endT maxDays
  let totalDays := Int.fdiv (endT - cs) 86400
  if totalDays ≤ 0 then ⟨[], 0, []⟩
  else
    let out := fetchLoop info ptr server endT 100 0 cs
    ⟨sortByKey (fun r => ptr r.timestamp) out.records, out.requests, out.trace⟩

/-! ## Helper lemmas -/

theorem toSigned8_emod (v : Int) (h1 : -128 ≤ v) (h2 : v < 128) :
    toSigned 8 (v % 256).toNat = v := by
  unfold toSigned
  split <;> omega

theorem toSigned16_emod (v : Int) (h1 : -32768 ≤ v) (h2 : v < 32768) :
    toSigned 16 (v % 65536).toNat = v := by
  unfold toSigned
  split <;> omega

theorem toSigned32_emod (v : Int) (h1 : -2147483648 ≤ v) (h2 : v < 2147483648) :
    toSigned 32 (v % 4294967296).toNat = v := by
  unfold toSigned
  split <;> omega

theorem be4_recombine (n : Nat) :
    ((n / 16777216 * 256 + n / 65536 % 256) * 256 + n / 256 % 256) * 256 + n % 256
      = n := by
  have h16 : n / 16777216 = n / 256 / 256 / 256 := by
    rw [Nat.div_div_eq_div_mul, Nat.div_div_eq_div_mul]
  have h65 : n / 65536 = n / 256 / 256 := by
    rw [Nat.div_div_eq_div_mul]
  rw [h16, h65, Nat.div_add_mod' (n / 256 / 256) 256, Nat.div_add_mod' (n / 256) 256,
    Nat.div_add_mod' n 256]

theorem tsStrategyFrac_none_of_fail (fromiso : String → Option Int) (s : String)
    (h : ∀ u, fromiso u = none) : tsStrategyFrac fromiso s = none := by
  unfold tsStrategyFrac
  cases hm : matchFracPattern s.data with
  | none => rfl
  | some g =>
    obtain ⟨base, micro, tz⟩ := g
    simp [h]

theorem tsStrategyNoFrac_none_of_fail (fromiso : String → Option Int) (s : String)
    (h : ∀ u, fromiso u = none) : tsStrategyNoFrac fromiso s = none := by
  simp [tsStrategyNoFrac, h]

theorem fdiv_day_nonpos (x : Int) (h : x < 86400) : Int.fdiv x 86400 ≤ 0 := by
  have h2 := Int.fmod_add_fdiv x 86400
  have h3 : 0 ≤ Int.fmod x 86400 := Int.fmod_nonneg' x (by norm_num)
  omega

theorem fetchLoop_requests_le (info : DeviceInfo) (ptr : String → Int)
    (server : Nat → BatchResponse) (endT : Int) :
    ∀ fuel k ts, (fetchLoop info ptr server endT fuel k ts).requests ≤ k + fuel := by
  intro fuel
  induction fuel with
  | zero =>
    intro k ts
    simp [fetchLoop]
  | succ n ih =>
    intro k ts
    simp only [fetchLoop]
    split
    · split
      · simp only []
        omega
      · rename_i recs ts2 heq
        have hr := ih (k + 1) ts2
        simp only []
        omega
    · simp only []
      omega

/-! ## Claim theorems -/

/-- C1: for every device configuration, timestamp environment, bounds
outcome and server behaviour — including servers that keep answering
non-empty batches whose records do not advance the cursor —
`fetch_full_history` issues at most 100 batch-fetch requests before
returning (the loop guard `batch_count < 100`, embedded as the structural
fuel `100`). -/
theorem fetch_full_history_at_most_100_batches (info : DeviceInfo)
    (fromiso strptime : String → Option Int) (now : Int)
    (boundsResp : Option BoundsBody) (server : Nat → BatchResponse)
    (maxDays : Option Nat) :
    (fetch_full_history info fromiso strptime now boundsResp server maxDays).requests
      ≤ 100 := by
  simp only [fetch_full_history]
  split
  · simp
  · simpa using fetchLoop_requests_le info _ server _ 100 0 _

/-- Concrete device/run data used by the closed counterexample runs. -/
def devDroplet : DeviceInfo :=
  ⟨"EUI1", .droplet, none, "Dev", "Site", 0, 0⟩

/-- Server whose first batch carries one record stamped 1970-01-01, far
before the requested window start, then an empty batch. -/
def serverStale : Nat → BatchResponse
  | 0 => .success [⟨some "1970-01-01T00:00:00", some "EUI1", some "00", none⟩]
  | _ => .success []

/-- Bounds response resolving to the window 1970-02-01 .. 1970-03-01. -/
def boundsFebMar : Option BoundsBody :=
  some ⟨some "1970-02-01T00:00:00", some "1970-03-01T00:00:00"⟩

/-- C2 counterexample: in this concrete run the consecutive cursor values
are 2678400 (1970-02-01) and then 1 — the success path set the window start
to the stale last-record timestamp plus one second, so the window start
strictly decreased, contradicting unconditional monotonicity. -/
theorem cursor_advance_not_monotonic_cex :
    (fetch_full_history devDroplet fromisoModel strptimeModel 999 boundsFebMar
        serverStale none).trace = [2678400, 1] ∧ ¬ ((1 : Int) > 2678400) := by
  constructor
  · decide
  · decide

/-- C2 amended: the whole-batch-failure path always advances the window
start strictly (by the fixed 14-day skip); the batch-success path sets it
to the normalized last-record timestamp plus one second, which is a strict
increase whenever that timestamp is not before the current window start
(and otherwise moves the cursor backwards, as the counterexample shows). -/
theorem cursor_advance_paths (info : DeviceInfo) (ptr : String → Int) (ts : Int) :
    (loopStep info ptr .failure ts = .cont [] (ts + 14 * 86400) ∧ ts < ts + 14 * 86400) ∧
    ∀ data s, data.getLast?.bind RawRec.timeStamp = some s → ts ≤ ptr s →
      loopStep info ptr (.success data) ts
          = .cont (data.filterMap (processRecord info)) (ptr s + 1) ∧
        ts < ptr s + 1 := by
  refine ⟨⟨rfl, by omega⟩, ?_⟩
  intro data s hlast hle
  have hne : data ≠ [] := by
    intro hnil
    rw [hnil] at hlast
    simp at hlast
  constructor
  · simp [loopStep, hne, hlast]
  · omega

theorem cursor_advance_paths_witness :
    (loopStep devDroplet (fun _ => 5) .failure 3 = .cont [] (3 + 14 * 86400) ∧
      (3 : Int) < 3 + 14 * 86400) ∧
    loopStep devDroplet (fun _ => 5) (.success [⟨some "x", none, none, none⟩]) 3
        = .cont ([⟨some "x", none, none, none⟩].filterMap (processRecord devDroplet))
            ((fun (_ : String) => (5 : Int)) "x" + 1) ∧
      (3 : Int) < (fun (_ : String) => (5 : Int)) "x" + 1 := by
  have h := cursor_advance_paths devDroplet (fun _ => 5) 3
  exact ⟨h.1, h.2 [⟨some "x", none, none, none⟩] "x" (by decide) (by decide)⟩

/-- Server whose first batch carries one well-formed record with an
undecodable one-byte Droplet payload, then an empty batch. -/
def serverBadPayload : Nat → BatchResponse
  | 0 => .success [⟨some "1970-01-02T00:00:00", some "EUI1", some "00", none⟩]
  | _ => .success []

/-- Bounds response resolving to the window 1970-01-01 .. 1970-03-01. -/
def boundsJanMar : Option BoundsBody :=
  some ⟨some "1970-01-01T00:00:00", some "1970-03-01T00:00:00"⟩

/-- C3 counterexample: in this concrete run the single record's payload
fails to decode (`parse_payload` yields the error dict), yet the output
collection still contains that record, with envelope/device fields only and
no decoded-reading fields — contradicting the claim that such a record is
dropped. -/
theorem decode_failure_record_emitted_cex :
    parse_payload devDroplet.dtype "00" devDroplet.emptyDistance = .errorDict ∧
    (fetch_full_history devDroplet fromisoModel strptimeModel 999 boundsJanMar
        serverBadPayload none).records.map (fun r => r.reading) = [none] := by
  constructor
  · decide
  · decide

/-- C3 amended: a record whose payload fails to decode is not dropped — it
is still emitted as a canonical record carrying the envelope and device
fields with `reading = none` (no decoded-reading fields).  A record is
dropped only when one of the required envelope keys (`Payload`,
`TimeStamp`, `DevEUI`) is missing. -/
theorem decode_failure_keeps_envelope_record (info : DeviceInfo) (rec : RawRec)
    (ts eui pl : String)
    (hts : rec.timeStamp = some ts) (heui : rec.devEUI = some eui)
    (hpl : rec.payload = some pl)
    (hfail : ∀ r, parse_payload info.dtype pl info.emptyDistance ≠ .reading r) :
    processRecord info rec
      = some
          { timestamp := ts, devEUI := eui, devName := info.devName,
            dtype := info.dtype, siteName := info.siteName, lat := info.lat,
            lon := info.lon, payload := pl, metadata := rec.metadata,
            reading := none } := by
  unfold processRecord
  rw [hpl, hts, heui]
  cases hp : parse_payload info.dtype pl info.emptyDistance with
  | reading r => exact absurd hp (hfail r)
  | errorDict => simp [hp]
  | noteDict => simp [hp]

theorem decode_failure_keeps_envelope_record_witness :
    processRecord devDroplet ⟨some "t0", some "EUI1", some "00", none⟩
      = some
          { timestamp := "t0", devEUI := "EUI1", devName := devDroplet.devName,
            dtype := devDroplet.dtype, siteName := devDroplet.siteName,
            lat := devDroplet.lat, lon := devDroplet.lon, payload := "00",
            metadata := (⟨some "t0", some "EUI1", some "00", none⟩ : RawRec).metadata,
            reading := none } := by
  have hpp : parse_payload devDroplet.dtype "00" devDroplet.emptyDistance = .errorDict := by
    decide
  exact decode_failure_keeps_envelope_record devDroplet
    ⟨some "t0", some "EUI1", some "00", none⟩ "t0" "EUI1" "00" rfl rfl rfl
    (fun r h => by rw [hpp] at h; exact ParseResult.noConfusion h)

/-- C4: `parse_timestamp_robust` is total by construction (it returns an
instant for every input string — every parser exception is caught), and
whenever every parse strategy fails, including on the empty string, it
returns the current wall-clock instant `now`. -/
theorem parse_timestamp_robust_total_fallback (fromiso strptime : String → Option Int)
    (now : Int) (s : String)
    (h1 : ∀ u, fromiso u = none) (h2 : ∀ u, strptime u = none) :
    parse_timestamp_robust fromiso strptime now s = now := by
  unfold parse_timestamp_robust
  split
  · rfl
  · simp [h1, h2, tsStrategyFrac_none_of_fail fromiso s h1,
      tsStrategyNoFrac_none_of_fail fromiso s h1]

theorem parse_timestamp_robust_total_fallback_witness :
    parse_timestamp_robust (fun _ => none) (fun _ => none) 42 "not-a-timestamp" = 42 :=
  parse_timestamp_robust_total_fallback (fun _ => none) (fun _ => none) 42
    "not-a-timestamp" (fun _ => rfl) (fun _ => rfl)

/-- C5 counterexample: a concrete payload of exactly 14 bytes on which the
Droplet decoder does not succeed — `struct.unpack(">hlhhhhh")` requires a
16-byte buffer, so the 14-byte claim is false. -/
theorem droplet_14_byte_payload_fails_cex :
    hexToBytes "0000000000000000000000000000" = some (List.replicate 14 0) ∧
    parseDROPLETdata "0000000000000000000000000000" = none := by
  constructor
  · decide
  · decide

/-- C5 amended: the Droplet layout i16,i32,i16,i16,i16,i16,i16 spans 16
bytes, not 14.  For every payload of exactly 16 bytes the decoder succeeds
and yields the scaled fields of the §4.1 table (temp=raw/100,
pressure=raw/100, humidity=raw/100, battery=round(raw/10,2),
rtcTemp=raw/100, rainfall=round(raw*0.42,2), status=raw); payloads of any
other byte length (including 14) fail to decode. -/
theorem droplet_decode_16_bytes (t p h b r rn st : Int)
    (ht : -32768 ≤ t ∧ t < 32768) (hp : -2147483648 ≤ p ∧ p < 2147483648)
    (hh : -32768 ≤ h ∧ h < 32768) (hb : -32768 ≤ b ∧ b < 32768)
    (hr : -32768 ≤ r ∧ r < 32768) (hrn : -32768 ≤ rn ∧ rn < 32768)
    (hst : -32768 ≤ st ∧ st < 32768) :
    parseDROPLETbytes
        (i16be t ++ i32be p ++ i16be h ++ i16be b ++ i16be r ++ i16be rn ++ i16be st)
      = some (.droplet ((t : ℚ) / 100) ((p : ℚ) / 100) ((h : ℚ) / 100)
          (round2 ((b : ℚ) / 10)) ((r : ℚ) / 100)
          (round2 ((rn : ℚ) * (42 / 100))) st) ∧
    ∀ bs : List Nat, bs.length ≠ 16 → parseDROPLETbytes bs = none := by
  constructor
  · simp only [i16be, i32be, List.cons_append, List.nil_append, parseDROPLETbytes]
    rw [Nat.div_add_mod', Nat.div_add_mod', Nat.div_add_mod', Nat.div_add_mod',
      Nat.div_add_mod', Nat.div_add_mod', be4_recombine]
    rw [toSigned16_emod t ht.1 ht.2, toSigned32_emod p hp.1 hp.2,
      toSigned16_emod h hh.1 hh.2, toSigned16_emod b hb.1 hb.2,
      toSigned16_emod r hr.1 hr.2, toSigned16_emod rn hrn.1 hrn.2,
      toSigned16_emod st hst.1 hst.2]
  · intro bs hl
    unfold parseDROPLETbytes
    split <;> simp_all

theorem droplet_decode_16_bytes_witness :
    (parseDROPLETbytes
        (i16be 1643 ++ i32be 98915 ++ i16be 10000 ++ i16be 42 ++ i16be 0 ++
          i16be 0 ++ i16be 0)
      = some (.droplet ((1643 : ℚ) / 100) ((98915 : ℚ) / 100) ((10000 : ℚ) / 100)
          (round2 ((42 : ℚ) / 10)) ((0 : ℚ) / 100)
          (round2 ((0 : ℚ) * (42 / 100))) 0)) ∧
    parseDROPLETbytes (List.replicate 14 0) = none := by
  have h := droplet_decode_16_bytes 1643 98915 10000 42 0 0 0
    (by norm_num) (by norm_num) (by norm_num) (by norm_num)
    (by norm_num) (by norm_num) (by norm_num)
  exact ⟨h.1, h.2 (List.replicate 14 0) (by decide)⟩

/-- C6 counterexample: the Droplet hex payload of Scenario A does not
decode to the claimed tuple — the i32 pressure field is 0x00018263 = 98915,
so the pressure is 989.15, not 993.39. -/
theorem droplet_scenario_A_cex :
    parseDROPLETdata "066b000182632710002a000000000000"
      ≠ some (.droplet (1643 / 100) (99339 / 100) 100 (21 / 5) 0 0 0) := by
  have hbytes : hexToBytes "066b000182632710002a000000000000"
      = some [6, 107, 0, 1, 130, 99, 39, 16, 0, 42, 0, 0, 0, 0, 0, 0] := by decide
  unfold parseDROPLETdata
  rw [hbytes, Option.some_bind]
  simp only [parseDROPLETbytes]
  norm_num [toSigned, round2, roundHalfEven]

/-- C6 amended: the Droplet hex payload `066b000182632710002a000000000000`
decodes to temp=16.43, pressure=989.15, humidity=100.00, battery=4.20,
rtcTemp=0.00, rainfall=0.00, status=0 (the pressure raw value is
0x00018263 = 98915). -/
theorem droplet_scenario_A_decode :
    parseDROPLETdata "066b000182632710002a000000000000"
      = some (.droplet (1643 / 100) (98915 / 100) 100 (21 / 5) 0 0 0) := by
  have hbytes : hexToBytes "066b000182632710002a000000000000"
      = some [6, 107, 0, 1, 130, 99, 39, 16, 0, 42, 0, 0, 0, 0, 0, 0] := by decide
  unfold parseDROPLETdata
  rw [hbytes, Option.some_bind]
  simp only [parseDROPLETbytes]
  norm_num [toSigned, round2, roundHalfEven]

/-- C7: for every HydroRanger payload whose decoded byte length is not 13,
`parse_payload` never yields a decoded reading (the fixed layout is never
applied — the result is even independent of the payload bytes, as the
second conjunct shows for any other wrong-length payload). -/
theorem hydroRanger_wrong_length_no_decode (pl pl2 : String) (ed : Option EDistIn)
    (bs bs2 : List Nat) (hb : hexToBytes pl = some bs) (hl : bs.length ≠ 13)
    (hb2 : hexToBytes pl2 = some bs2) (hl2 : bs2.length ≠ 13) :
    (∀ r, parse_payload .hydroRanger pl ed ≠ .reading r) ∧
    parse_payload .hydroRanger pl ed = parse_payload .hydroRanger pl2 ed := by
  unfold parse_payload
  cases hce : convEDist ed with
  | none => simp
  | some edi =>
    rw [hb, hb2]
    simp [hl, hl2]

theorem hydroRanger_wrong_length_no_decode_witness :
    (∀ r, parse_payload .hydroRanger "0000" none ≠ .reading r) ∧
    parse_payload .hydroRanger "0000" none = parse_payload .hydroRanger "ff" none :=
  hydroRanger_wrong_length_no_decode "0000" "ff" none [0, 0] [255]
    (by decide) (by decide) (by decide) (by decide)

/-- C8: decoding any 13-byte HydroRanger payload (stated over the big-endian
encodings of the raw fields, which range over all 13-byte payloads): when
the raw temperature equals −777 the decoded temperature and humidity are
absent (`none`), and for every other raw temperature they are
round(raw/100, 2) of the temperature and humidity raw values; the level
fields pass through (with the intentional min/max swap under a reference
distance). -/
theorem hydroRanger_temp_sentinel (sens avg mn mx t hu w : Int) (ed : Option Int)
    (hs : -128 ≤ sens ∧ sens < 128)
    (ha : -32768 ≤ avg ∧ avg < 32768) (hm : -32768 ≤ mn ∧ mn < 32768)
    (hx : -32768 ≤ mx ∧ mx < 32768) (ht : -32768 ≤ t ∧ t < 32768)
    (hh : -32768 ≤ hu ∧ hu < 32768) :
    parseHydroRangerBytes
        (i8be sens ++ i16be avg ++ i16be mn ++ i16be mx ++ i16be t ++ i16be hu ++ i16be w)
        ed
      = some (.hydroRanger sens
          (match ed with | some e => e - avg | none => avg)
          (match ed with | some e => e - mx | none => mn)
          (match ed with | some e => e - mn | none => mx)
          (if t = -777 then none else some (round2 ((t : ℚ) / 100)))
          (if t = -777 then none else some (round2 ((hu : ℚ) / 100)))) := by
  simp only [i8be, i16be, List.cons_append, List.nil_append, parseHydroRangerBytes,
    Nat.div_add_mod']
  rw [toSigned8_emod sens hs.1 hs.2, toSigned16_emod avg ha.1 ha.2,
    toSigned16_emod mn hm.1 hm.2, toSigned16_emod mx hx.1 hx.2,
    toSigned16_emod t ht.1 ht.2, toSigned16_emod hu hh.1 hh.2]
  by_cases hcase : t = -777 <;> cases ed <;> simp [hcase]

theorem hydroRanger_temp_sentinel_witness :
    parseHydroRangerBytes
        (i8be 5 ++ i16be 2104 ++ i16be 2100 ++ i16be 2110 ++ i16be (-777) ++
          i16be 5000 ++ i16be 0) (some 2236)
      = some (.hydroRanger 5 132 126 136 none none) := by
  have h := hydroRanger_temp_sentinel 5 2104 2100 2110 (-777) 5000 0 (some 2236)
    (by norm_num) (by norm_num) (by norm_num) (by norm_num) (by norm_num) (by norm_num)
  simpa using h

/-- C9: whenever the bounds round trip fails (network error, timeout, or a
malformed response body — the caught-exception case of the resolver), the
resolver returns the default window (now − 365 days, now) instead of
propagating the error, and that window is usable (start strictly before
end). -/
theorem bounds_failure_default_window (ptr : String → Int) (now : Int) :
    get_device_bounds_safe ptr now none = (now - 365 * 86400, now) ∧
    (get_device_bounds_safe ptr now none).1 < (get_device_bounds_safe ptr now none).2 := by
  constructor
  · rfl
  · simp only [get_device_bounds_safe]
    omega

/-- C10: whenever the resolved window and the configured day cap make
`end − collection_start` smaller than one full day — including windows in
which `collection_start` is strictly earlier than `end` —
`fetch_full_history` returns the empty collection and issues no batch-fetch
request at all, because the whole-day count `(end - collection_start).days`
is then not positive and the early return fires before the loop. -/
theorem short_window_no_requests (info : DeviceInfo)
    (fromiso strptime : String → Option Int) (now : Int)
    (boundsResp : Option BoundsBody) (server : Nat → BatchResponse)
    (maxDays : Option Nat)
    (h : (get_device_bounds_safe (parse_timestamp_robust fromiso strptime now) now
            boundsResp).2
        - collection_start
            (get_device_bounds_safe (parse_timestamp_robust fromiso strptime now) now
              boundsResp).1
            (get_device_bounds_safe (parse_timestamp_robust fromiso strptime now) now
              boundsResp).2
            maxDays < 86400) :
    fetch_full_history info fromiso strptime now boundsResp server maxDays
      = ⟨[], 0, []⟩ := by
  have hfd := fdiv_day_nonpos _ h
  simp only [fetch_full_history]
  rw [if_pos hfd]

/-- Bounds response whose resolved window is one hour wide: collection
start strictly earlier than end, yet shorter than a full day. -/
def boundsOneHour : Option BoundsBody :=
  some ⟨some "1970-01-01T00:00:00", some "1970-01-01T01:00:00"⟩

theorem short_window_no_requests_witness :
    fetch_full_history devDroplet fromisoModel strptimeModel 999 boundsOneHour
        serverStale none = ⟨[], 0, []⟩ :=
  short_window_no_requests devDroplet fromisoModel strptimeModel 999 boundsOneHour
    serverStale none (by decide)
